import Mathlib

/-!
Verification of the wire-level packet codec of `wg-toolkit` against its
design document. The definitions below are a shallow embedding of
`src/wg-toolkit/src/net/packet.rs`: bytes are `Nat` values below 256,
machine integers are `Nat` with explicit `% 2^w` where the source
truncates, panics (failed `assert!` or out-of-bounds slicing) are
modelled as `none` / `abort`, and `debug_assert!` is modelled as a
no-op, matching release builds.
-/

/-! ## Constants (from the top of `packet.rs`) -/

def PACKET_MAX_LEN : Nat := 1472
def PACKET_PREFIX_LEN : Nat := 4
def PACKET_FLAGS_LEN : Nat := 2
def PACKET_MIN_LEN : Nat := PACKET_PREFIX_LEN + PACKET_FLAGS_LEN

/-- `8 + 4 + 4 + 1 + 4 + 4 /*+ 8*/ + 4` in the source (= 29). -/
def PACKET_MAX_FOOTER_LEN : Nat := 8 + 4 + 4 + 1 + 4 + 4 + 4

namespace flags

def HAS_REQUESTS : Nat        := 0x0001
def HAS_PIGGYBACKS : Nat      := 0x0002
def HAS_ACKS : Nat            := 0x0004
def ON_CHANNEL : Nat          := 0x0008
def IS_RELIABLE : Nat         := 0x0010
def IS_FRAGMENT : Nat         := 0x0020
def HAS_SEQUENCE_NUMBER : Nat := 0x0040
def INDEXED_CHANNEL : Nat     := 0x0080
def HAS_CHECKSUM : Nat        := 0x0100
def CREATE_CHANNEL : Nat      := 0x0200
def HAS_CUMULATIVE_ACK : Nat  := 0x0400

end flags

/-- The flags supported by `sync_state` (the `KNOWN_FLAGS` constant). -/
def KNOWN_FLAGS : Nat :=
  flags.HAS_CHECKSUM |||
  flags.HAS_CUMULATIVE_ACK |||
  flags.HAS_ACKS |||
  flags.HAS_SEQUENCE_NUMBER |||
  flags.HAS_REQUESTS |||
  flags.IS_FRAGMENT |||
  flags.ON_CHANNEL |||
  flags.IS_RELIABLE

/-- The 16-bit complement `!KNOWN_FLAGS` used by the `flags & !KNOWN_FLAGS` test. -/
def UNKNOWN_MASK : Nat := 0xFFFF ^^^ KNOWN_FLAGS

/-! ## Little-endian byte helpers (`byteorder::LE` reads and writes) -/

/-- The two little-endian bytes of a `u16` write. -/
def le16 (n : Nat) : List Nat := [n % 256, n / 256 % 256]

/-- The four little-endian bytes of a `u32` write. -/
def le32 (n : Nat) : List Nat :=
  [n % 256, n / 256 % 256, n / 65536 % 256, n / 16777216 % 256]

/-- Byte `i` of the raw buffer (out-of-range reads never happen on the
paths we model; they default to 0). -/
def byteAt (data : List Nat) (i : Nat) : Nat := data.getD i 0

/-- Little-endian `u16` read at offset `i`. -/
def leAt2 (data : List Nat) (i : Nat) : Nat :=
  byteAt data i + 256 * byteAt data (i + 1)

/-- Little-endian `u32` read at offset `i`. -/
def leAt4 (data : List Nat) (i : Nat) : Nat :=
  byteAt data i + 256 * byteAt data (i + 1) +
  65536 * byteAt data (i + 2) + 16777216 * byteAt data (i + 3)

/-- `RawPacket::body_data` when the length cursor is `n`: bytes `[4, n)`. -/
def bodySlice (data : List Nat) (n : Nat) : List Nat :=
  (data.take n).drop PACKET_PREFIX_LEN

/-- The full datagram produced by a finalized packet: 4-byte opaque
prefix, the little-endian flag word (written by `write_flags`), the
body, then the footer built by `sync_data`. -/
def wireOf (pfx : List Nat) (flagsv : Nat) (body footer : List Nat) : List Nat :=
  pfx ++ le16 flagsv ++ body ++ footer

/-! ## Checksum (`calc_checksum`) -/

/-- The loop `while let Ok(num) = reader.read_u32::<LE>() { checksum ^= num }`:
XOR successive little-endian `u32` words into the accumulator, stopping
as soon as fewer than 4 bytes remain. -/
def calcChecksumAux : Nat → List Nat → Nat
  | acc, b0 :: b1 :: b2 :: b3 :: rest =>
      calcChecksumAux (acc ^^^ (b0 + 256 * b1 + 65536 * b2 + 16777216 * b3)) rest
  | acc, _ => acc

/-- `calc_checksum`, accumulator initially `0`. -/
def calc_checksum (bytes : List Nat) : Nat := calcChecksumAux 0 bytes

/-- The successive complete little-endian `u32` words of a byte
sequence, any trailing group of fewer than 4 bytes ignored. Written
from the spec wording of §4.4, for comparison with `calc_checksum`. -/
def words4 : List Nat → List Nat
  | b0 :: b1 :: b2 :: b3 :: rest =>
      (b0 + 256 * b1 + 65536 * b2 + 16777216 * b3) :: words4 rest
  | _ => []

/-- Spec-worded checksum: XOR of the complete words, starting from 0. -/
def checksum_spec (bytes : List Nat) : Nat :=
  (words4 bytes).foldl (fun acc w => acc ^^^ w) 0

/-! ## Packet config (`PacketConfig`) -/

structure PacketConfig where
  sequence_num : Nat
  sequence_first_num : Nat
  sequence_last_num : Nat
  reliable : Bool
  cumulative_ack : Nat
  single_acks : List Nat
  on_channel : Bool
  has_checksum : Bool
deriving Repr, DecidableEq

/-- `PacketConfig::new`. -/
def PacketConfig.new : PacketConfig :=
  { sequence_num := 0
    sequence_first_num := 0
    sequence_last_num := 0
    reliable := false
    cumulative_ack := 0
    single_acks := []
    on_channel := false
    has_checksum := false }

/-- `PacketConfig::sequence_range`: present iff `first < last`. -/
def PacketConfig.sequence_range (c : PacketConfig) : Option (Nat × Nat) :=
  if c.sequence_first_num < c.sequence_last_num then
    some (c.sequence_first_num, c.sequence_last_num)
  else
    none

/-- `PacketConfig::cumulative_ack` accessor: `0` is the absent sentinel. -/
def PacketConfig.cumulative_ack? (c : PacketConfig) : Option Nat :=
  if c.cumulative_ack ≠ 0 then some c.cumulative_ack else none

/-! ## Trailer encode (`Packet::sync_data`) -/

/-- The single-ack write loop of `sync_data`. Returns the acks written
to the wire, the `count` counter, and the queue left in the config.
Faithful to the source: the ack is popped (`pop_front`) *before* the
room test, and `available_len` is never decreased inside the loop. -/
def ackWriteLoop (queue : List Nat) (available_len : Nat) : List Nat × Nat × List Nat :=
  match queue with
  | [] => ([], 0, [])
  | ack :: rest =>
    if available_len < 4 then
      ([], 0, rest)
    else
      let (written, count, left) := ackWriteLoop rest available_len
      (ack :: written, count + 1, left)

/-- `Packet::sync_data`. Inputs: the body bytes (between `MIN_LEN` and
`footer_offset`), the packet's stored `first_request_offset`, and the
config. Result: the flag word written by `write_flags`, the footer
bytes appended after the body, and the config left after encoding
(acks popped). `none` models a panic of `RawPacket::grow` (raw
capacity exceeded); each `grow` checks capacity at its call site, and
because the footer only ever grows, checking each append against
`PACKET_MAX_LEN` is equivalent. -/
def sync_data (body : List Nat) (first_request_offset : Nat) (config : PacketConfig) :
    Option (Nat × List Nat × PacketConfig) := do
  let baseLen := PACKET_MIN_LEN + body.length
  let flags0 :=
    (if config.reliable then flags.IS_RELIABLE else 0) |||
    (if config.on_channel then flags.ON_CHANNEL else 0)
  -- if let Some((first_num, last_num)) = config.sequence_range()
  let (flags1, footer1) ←
    match config.sequence_range with
    | some (first_num, last_num) =>
      if baseLen + 8 ≤ PACKET_MAX_LEN then
        some (flags0 ||| flags.IS_FRAGMENT, le32 first_num ++ le32 last_num)
      else none
    | none => some (flags0, [])
  -- if let Some(request_offset) = self.first_request_offset()
  let (flags2, footer2) ←
    if PACKET_FLAGS_LEN ≤ first_request_offset then
      if baseLen + footer1.length + 2 ≤ PACKET_MAX_LEN then
        some (flags1 ||| flags.HAS_REQUESTS,
              footer1 ++ le16 (first_request_offset % 65536))
      else none
    else some (flags1, footer1)
  -- if config.reliable() || config.sequence_range().is_some()
  let (flags3, footer3) ←
    if config.reliable || config.sequence_range.isSome then
      if baseLen + footer2.length + 4 ≤ PACKET_MAX_LEN then
        some (flags2 ||| flags.HAS_SEQUENCE_NUMBER, footer2 ++ le32 config.sequence_num)
      else none
    else some (flags2, footer2)
  -- if !config.single_acks().is_empty()
  let (flags4, footer4, config4) ←
    if config.single_acks ≠ [] then
      -- available_len is computed once here and never decremented by the loop.
      let available_len := PACKET_MAX_FOOTER_LEN - footer3.length
        - (if config.cumulative_ack?.isSome then 4 else 0)
        - (if config.has_checksum then 4 else 0)
        - 1
      let (written, count, left) := ackWriteLoop config.single_acks available_len
      if baseLen + footer3.length + 4 * written.length + 1 ≤ PACKET_MAX_LEN then
        some (flags3 ||| flags.HAS_ACKS,
              footer3 ++ (written.map le32).flatten ++ [count % 256],
              { config with single_acks := left })
      else none
    else some (flags3, footer3, config)
  -- if let Some(num) = config.cumulative_ack()
  let (flags5, footer5) ←
    match config4.cumulative_ack? with
    | some num =>
      if baseLen + footer4.length + 4 ≤ PACKET_MAX_LEN then
        some (flags4 ||| flags.HAS_CUMULATIVE_ACK, footer4 ++ le32 num)
      else none
    | none => some (flags4, footer4)
  let flags6 := if config4.has_checksum then flags5 ||| flags.HAS_CHECKSUM else flags5
  -- write_flags(flags), then append the checksum of the body region
  -- (flags through the end of the footer written so far).
  let footer6 ←
    if config4.has_checksum then
      let checksum := calc_checksum (le16 flags6 ++ body ++ footer5)
      if baseLen + footer5.length + 4 ≤ PACKET_MAX_LEN then
        some (footer5 ++ le32 checksum)
      else none
    else some footer5
  some (flags6, footer6, config4)

/-! ## Trailer decode (`Packet::sync_state`) -/

inductive PacketSyncError where
  | unknownFlags (bits : Nat)
  | corrupted
  | invalidChecksum
deriving Repr, DecidableEq

/-- An early exit of `sync_state`: a panic (`abort`) or an `Err` return. -/
inductive EarlyExit where
  | abort
  | fail (e : PacketSyncError)
deriving Repr, DecidableEq

/-- The outcome of `sync_state`: a panic, an `Err`, or `Ok` together
with the final `footer_offset`, `first_request_offset` and config. -/
inductive SyncResult where
  | abort
  | fail (e : PacketSyncError)
  | ok (footer_offset : Nat) (first_request_offset : Nat) (config : PacketConfig)
deriving Repr, DecidableEq

def SyncResult.isOk : SyncResult → Bool
  | .ok _ _ _ => true
  | _ => false

/-- `RawPacket::shrink` applied to the length cursor: retreat the tail
by `n`, panicking (`none`) unless the remaining length stays at least
`PACKET_MIN_LEN`. -/
def shrinkChk (cursor n : Nat) : Option Nat :=
  if PACKET_MIN_LEN + n ≤ cursor then some (cursor - n) else none

/-- The decode ack loop: `for _ in 0..count { queue.push_back(shrink_read(4)) }`.
Each iteration shrinks by 4 (possible panic) and reads the freed bytes;
the value is appended at the back of the queue, so the queue receives
the wire acks tail-first. -/
def readAcksLoop (data : List Nat) : Nat → Nat → List Nat → Option (Nat × List Nat)
  | 0, cursor, queue => some (cursor, queue)
  | n + 1, cursor, queue =>
    match shrinkChk cursor 4 with
    | none => none
    | some c => readAcksLoop data n c (queue ++ [leAt4 data c])

/-- Checksum branch of `sync_state`. The source tests
`flags | HAS_CHECKSUM != 0` (bitwise OR, not AND), kept verbatim. -/
def stepChecksum (data : List Nat) (flagsv cursor : Nat) : Except EarlyExit Nat :=
  if flagsv ||| flags.HAS_CHECKSUM ≠ 0 then
    match shrinkChk cursor 4 with
    | none => .error .abort
    | some c =>
      if leAt4 data c = calc_checksum (bodySlice data c) then .ok c
      else .error (.fail .invalidChecksum)
  else .ok cursor

/-- Cumulative-ack branch of `sync_state` (`flags | HAS_CUMULATIVE_ACK != 0`). -/
def stepCumAck (data : List Nat) (flagsv cursor : Nat) (config : PacketConfig) :
    Except EarlyExit (Nat × PacketConfig) :=
  if flagsv ||| flags.HAS_CUMULATIVE_ACK ≠ 0 then
    match shrinkChk cursor 4 with
    | none => .error .abort
    | some c =>
      -- let ack = read_u32(freed bytes)
      if leAt4 data c = 0 then .error (.fail .corrupted)
      else .ok (c, { config with cumulative_ack := leAt4 data c })
  else .ok (cursor, config)

/-- Single-acks branch of `sync_state` (`flags | HAS_ACKS != 0`). -/
def stepAcks (data : List Nat) (flagsv cursor : Nat) (config : PacketConfig) :
    Except EarlyExit (Nat × PacketConfig) :=
  if flagsv ||| flags.HAS_ACKS ≠ 0 then
    match shrinkChk cursor 1 with
    | none => .error .abort
    | some ca =>
      -- let count = the freed byte
      if byteAt data ca = 0 then .error (.fail .corrupted)
      else
        match readAcksLoop data (byteAt data ca) ca config.single_acks with
        | none => .error .abort
        | some (c, queue) => .ok (c, { config with single_acks := queue })
  else .ok (cursor, config)

/-- Sequence-number branch of `sync_state` (`flags | HAS_SEQUENCE_NUMBER != 0`). -/
def stepSeqNum (data : List Nat) (flagsv cursor : Nat) (config : PacketConfig) :
    Except EarlyExit (Nat × PacketConfig) :=
  if flagsv ||| flags.HAS_SEQUENCE_NUMBER ≠ 0 then
    match shrinkChk cursor 4 with
    | none => .error .abort
    | some c => .ok (c, { config with sequence_num := leAt4 data c })
  else .ok (cursor, config)

/-- Requests branch of `sync_state` (`flags | HAS_REQUESTS != 0`). -/
def stepRequests (data : List Nat) (flagsv cursor fro : Nat) :
    Except EarlyExit (Nat × Nat) :=
  if flagsv ||| flags.HAS_REQUESTS ≠ 0 then
    match shrinkChk cursor 2 with
    | none => .error .abort
    | some c =>
      -- let offset = read_u16(freed bytes) as usize
      if leAt2 data c < PACKET_FLAGS_LEN then .error (.fail .corrupted)
      else .ok (c, leAt2 data c)
  else .ok (cursor, fro)

/-- Fragment branch of `sync_state` (`flags | IS_FRAGMENT != 0`). -/
def stepFragment (data : List Nat) (flagsv cursor : Nat) (config : PacketConfig) :
    Except EarlyExit (Nat × PacketConfig) :=
  if flagsv ||| flags.IS_FRAGMENT ≠ 0 then
    match shrinkChk cursor 8 with
    | none => .error .abort
    | some c =>
      -- let first_num, last_num = the two u32 reads of the freed bytes
      if leAt4 data (c + 4) ≤ leAt4 data c then .error (.fail .corrupted)
      else .ok (c, { config with sequence_first_num := leAt4 data c,
                                 sequence_last_num := leAt4 data (c + 4) })
  else .ok (cursor, config)

/-- `Packet::sync_state` as a chain of the branch steps above, with the
early-return result carried in `Except`. `data` is the raw buffer
content, `len` the received datagram length, `fro0` the packet's
`first_request_offset` before the call. -/
def sync_stateE (data : List Nat) (len fro0 : Nat) (config : PacketConfig) :
    Except EarlyExit (Nat × Nat × PacketConfig) :=
  -- self.raw.set_len(len): panic outside [PACKET_MIN_LEN, PACKET_MAX_LEN]
  if len < PACKET_MIN_LEN ∨ PACKET_MAX_LEN < len then .error .abort else
  -- let flags = read_flags(); let unknown = flags & !KNOWN_FLAGS
  if leAt2 data PACKET_PREFIX_LEN &&& UNKNOWN_MASK ≠ 0 then
    .error (.fail (.unknownFlags (leAt2 data PACKET_PREFIX_LEN &&& UNKNOWN_MASK)))
  else
  match stepChecksum data (leAt2 data PACKET_PREFIX_LEN) len with
  | .error e => .error e
  | .ok c1 =>
  match stepCumAck data (leAt2 data PACKET_PREFIX_LEN) c1 config with
  | .error e => .error e
  | .ok (c2, config2) =>
  match stepAcks data (leAt2 data PACKET_PREFIX_LEN) c2 config2 with
  | .error e => .error e
  | .ok (c3, config3) =>
  match stepSeqNum data (leAt2 data PACKET_PREFIX_LEN) c3 config3 with
  | .error e => .error e
  | .ok (c4, config4) =>
  match stepRequests data (leAt2 data PACKET_PREFIX_LEN) c4 fro0 with
  | .error e => .error e
  | .ok (c5, fro1) =>
  match stepFragment data (leAt2 data PACKET_PREFIX_LEN) c5 config4 with
  | .error e => .error e
  | .ok (c6, config6) =>
  -- footer_offset := raw.len (after all shrinks); raw.len is then rolled
  -- back to `len`; the final `debug_assert!` is compiled out in release.
  .ok (c6, fro1,
    { config6 with reliable := (leAt2 data PACKET_PREFIX_LEN ||| flags.IS_RELIABLE) != 0,
                   on_channel := (leAt2 data PACKET_PREFIX_LEN ||| flags.ON_CHANNEL) != 0 })

/-- `Packet::sync_state`, with panics surfaced as `SyncResult.abort`. -/
def sync_state (data : List Nat) (len fro0 : Nat) (config : PacketConfig) : SyncResult :=
  match sync_stateE data len fro0 config with
  | .error .abort => .abort
  | .error (.fail e) => .fail e
  | .ok (fo, fro1, c) => .ok fo fro1 c

/-! ## Raw buffer flags slot (`RawPacket::write_flags` / `read_flags`) -/

/-- `RawPacket`: the fixed 1472-byte buffer and its length cursor. -/
structure RawPacket where
  data : List Nat
  len : Nat
deriving Repr, DecidableEq

/-- `write_flags`: copy the two little-endian bytes of `f` into the
slot `[PACKET_PREFIX_LEN, PACKET_PREFIX_LEN + PACKET_FLAGS_LEN)`. -/
def RawPacket.write_flags (r : RawPacket) (f : Nat) : RawPacket :=
  { r with data := r.data.take PACKET_PREFIX_LEN ++ le16 f ++
                   r.data.drop (PACKET_PREFIX_LEN + PACKET_FLAGS_LEN) }

/-- `read_flags`: little-endian `u16` at `[4, 6)`. -/
def RawPacket.read_flags (r : RawPacket) : Nat := leAt2 r.data PACKET_PREFIX_LEN

/-! ## Concrete inputs used by the claim theorems -/

/-- A config whose single-ack queue holds `1..=10`, all else default. -/
def cfgTenAcks : PacketConfig :=
  { PacketConfig.new with single_acks := [1, 2, 3, 4, 5, 6, 7, 8, 9, 10] }

/-- A config with every trailer field present: fragment range `(3,5)`,
sequence number 4, reliable, on channel, cumulative ack 7, checksum
enabled, single acks `[1, 2]` (front first). -/
def cfgAllFields : PacketConfig :=
  { PacketConfig.new with
      sequence_num := 4
      sequence_first_num := 3
      sequence_last_num := 5
      reliable := true
      on_channel := true
      cumulative_ack := 7
      has_checksum := true
      single_acks := [1, 2] }

/-- The footer `sync_data` builds for `cfgAllFields` with an empty body
and request offset 2 (checksum word last). -/
def footerAllFields : List Nat :=
  [3, 0, 0, 0, 5, 0, 0, 0, 2, 0, 4, 0, 0, 0,
   1, 0, 0, 0, 2, 0, 0, 0, 2, 7, 0, 0, 0, 120, 2, 4, 0]

/-- The config `sync_state` produces from that wire datagram: note
`single_acks` comes back tail-first and `has_checksum` stays untouched. -/
def cfgAllFieldsDecoded : PacketConfig :=
  { PacketConfig.new with
      sequence_num := 4
      sequence_first_num := 3
      sequence_last_num := 5
      reliable := true
      on_channel := true
      cumulative_ack := 7
      has_checksum := false
      single_acks := [2, 1] }

/-! ## Helper lemmas -/

theorem lor_ne_zero_right (f k : Nat) (hk : k ≠ 0) : f ||| k ≠ 0 := by
  intro h
  apply hk
  apply Nat.eq_of_testBit_eq
  intro i
  have h1 := congrArg (fun n => n.testBit i) h
  simp only [Nat.testBit_lor, Nat.zero_testBit, Bool.or_eq_false_iff] at h1
  simp [h1.2]

theorem shrinkChk_some {c n c1 : Nat} (h : shrinkChk c n = some c1) :
    c1 + n ≤ c ∧ 6 ≤ c1 := by
  unfold shrinkChk at h
  split at h
  · injection h with h
    simp only [PACKET_MIN_LEN, PACKET_PREFIX_LEN, PACKET_FLAGS_LEN] at *
    omega
  · exact absurd h (by simp)


theorem stepChecksum_ok {data : List Nat} {flagsv c c1 : Nat}
    (h : stepChecksum data flagsv c = .ok c1) : c1 + 4 ≤ c ∧ 6 ≤ c1 := by
  unfold stepChecksum at h
  rw [if_pos (lor_ne_zero_right _ _ (by decide))] at h
  cases hs : shrinkChk c 4 with
  | none => rw [hs] at h; exact absurd h (by simp)
  | some cc =>
    rw [hs] at h
    have hb := shrinkChk_some hs
    split at h
    · exact absurd h (by simp)
    · rename_i cx heq
      injection heq with heq
      split at h
      · injection h with h
        omega
      · exact absurd h (by simp)

theorem stepCumAck_ok {data : List Nat} {flagsv c : Nat} {cfg : PacketConfig}
    {c1 : Nat} {cfg1 : PacketConfig}
    (h : stepCumAck data flagsv c cfg = .ok (c1, cfg1)) : c1 + 4 ≤ c ∧ 6 ≤ c1 := by
  unfold stepCumAck at h
  rw [if_pos (lor_ne_zero_right _ _ (by decide))] at h
  cases hs : shrinkChk c 4 with
  | none => rw [hs] at h; exact absurd h (by simp)
  | some cc =>
    rw [hs] at h
    have hb := shrinkChk_some hs
    split at h
    · exact absurd h (by simp)
    · rename_i cx heq
      injection heq with heq
      split at h
      · exact absurd h (by simp)
      · injection h with h
        injection h with h1 h2
        omega

theorem readAcksLoop_some {data : List Nat} :
    ∀ (n c : Nat) (q : List Nat) (c1 : Nat) (q1 : List Nat),
      readAcksLoop data n c q = some (c1, q1) → 6 ≤ c →
      c1 + 4 * n ≤ c ∧ 6 ≤ c1 := by
  intro n
  induction n with
  | zero =>
    intro c q c1 q1 h hc
    unfold readAcksLoop at h
    injection h with h
    injection h with h1 h2
    omega
  | succ k ih =>
    intro c q c1 q1 h hc
    unfold readAcksLoop at h
    cases hs : shrinkChk c 4 with
    | none => rw [hs] at h; exact absurd h (by simp)
    | some cc =>
      rw [hs] at h
      have hb := shrinkChk_some hs
      have := ih cc (q ++ [leAt4 data cc]) c1 q1 h hb.2
      omega

theorem stepAcks_ok {data : List Nat} {flagsv c : Nat} {cfg : PacketConfig}
    {c1 : Nat} {cfg1 : PacketConfig}
    (h : stepAcks data flagsv c cfg = .ok (c1, cfg1)) : c1 + 5 ≤ c ∧ 6 ≤ c1 := by
  unfold stepAcks at h
  rw [if_pos (lor_ne_zero_right _ _ (by decide))] at h
  cases hs : shrinkChk c 1 with
  | none => rw [hs] at h; exact absurd h (by simp)
  | some ca =>
    rw [hs] at h
    have hb := shrinkChk_some hs
    split at h
    · exact absurd h (by simp)
    · rename_i cx heq
      injection heq with heq
      subst heq
      split at h
      · exact absurd h (by simp)
      · rename_i hcount
        cases hr : readAcksLoop data (byteAt data ca) ca cfg.single_acks with
        | none => rw [hr] at h; exact absurd h (by simp)
        | some r =>
          rw [hr] at h
          obtain ⟨cb, queue⟩ := r
          have hl := readAcksLoop_some _ _ _ _ _ hr hb.2
          injection h with h
          injection h with h1 h2
          have hcount1 : 1 ≤ byteAt data ca := Nat.one_le_iff_ne_zero.mpr hcount
          omega

theorem stepSeqNum_ok {data : List Nat} {flagsv c : Nat} {cfg : PacketConfig}
    {c1 : Nat} {cfg1 : PacketConfig}
    (h : stepSeqNum data flagsv c cfg = .ok (c1, cfg1)) : c1 + 4 ≤ c ∧ 6 ≤ c1 := by
  unfold stepSeqNum at h
  rw [if_pos (lor_ne_zero_right _ _ (by decide))] at h
  cases hs : shrinkChk c 4 with
  | none => rw [hs] at h; exact absurd h (by simp)
  | some cc =>
    rw [hs] at h
    have hb := shrinkChk_some hs
    split at h
    · exact absurd h (by simp)
    · rename_i cx heq
      injection heq with heq
      injection h with h
      injection h with h1 h2
      omega

theorem stepRequests_ok {data : List Nat} {flagsv c fro : Nat} {c1 fro1 : Nat}
    (h : stepRequests data flagsv c fro = .ok (c1, fro1)) : c1 + 2 ≤ c ∧ 6 ≤ c1 := by
  unfold stepRequests at h
  rw [if_pos (lor_ne_zero_right _ _ (by decide))] at h
  cases hs : shrinkChk c 2 with
  | none => rw [hs] at h; exact absurd h (by simp)
  | some cc =>
    rw [hs] at h
    have hb := shrinkChk_some hs
    split at h
    · exact absurd h (by simp)
    · rename_i cx heq
      injection heq with heq
      split at h
      · exact absurd h (by simp)
      · injection h with h
        injection h with h1 h2
        omega

theorem stepFragment_ok {data : List Nat} {flagsv c : Nat} {cfg : PacketConfig}
    {c1 : Nat} {cfg1 : PacketConfig}
    (h : stepFragment data flagsv c cfg = .ok (c1, cfg1)) : c1 + 8 ≤ c ∧ 6 ≤ c1 := by
  unfold stepFragment at h
  rw [if_pos (lor_ne_zero_right _ _ (by decide))] at h
  cases hs : shrinkChk c 8 with
  | none => rw [hs] at h; exact absurd h (by simp)
  | some cc =>
    rw [hs] at h
    have hb := shrinkChk_some hs
    split at h
    · exact absurd h (by simp)
    · rename_i cx heq
      injection heq with heq
      split at h
      · exact absurd h (by simp)
      · injection h with h
        injection h with h1 h2
        omega

/-- Because every branch of `sync_state` is taken unconditionally (the
`flags | FLAG != 0` tests), an `Ok` return needs at least
4 + 4 + (1 + 4) + 4 + 2 + 8 footer bytes over the 6-byte minimum. -/
theorem sync_stateE_ok_len {data : List Nat} {len fro : Nat} {cfg : PacketConfig}
    {out : Nat × Nat × PacketConfig}
    (h : sync_stateE data len fro cfg = .ok out) : 33 ≤ len := by
  unfold sync_stateE at h
  split at h
  · exact absurd h (by simp)
  split at h
  · exact absurd h (by simp)
  split at h
  · exact absurd h (by simp)
  rename_i c1 h1
  split at h
  · exact absurd h (by simp)
  rename_i c2 cfg2 h2
  split at h
  · exact absurd h (by simp)
  rename_i c3 cfg3 h3
  split at h
  · exact absurd h (by simp)
  rename_i c4 cfg4 h4
  split at h
  · exact absurd h (by simp)
  rename_i c5 fro1 h5
  split at h
  · exact absurd h (by simp)
  rename_i c6 cfg6 h6
  have b1 := stepChecksum_ok h1
  have b2 := stepCumAck_ok h2
  have b3 := stepAcks_ok h3
  have b4 := stepSeqNum_ok h4
  have b5 := stepRequests_ok h5
  have b6 := stepFragment_ok h6
  omega

theorem exists_cons6 : ∀ (l : List Nat), 6 ≤ l.length →
    ∃ a0 a1 a2 a3 a4 a5 t, l = a0 :: a1 :: a2 :: a3 :: a4 :: a5 :: t
  | a0 :: a1 :: a2 :: a3 :: a4 :: a5 :: t, _ => ⟨a0, a1, a2, a3, a4, a5, t, rfl⟩
  | [], h => by simp at h
  | [_], h => by simp at h
  | [_, _], h => by simp at h
  | [_, _, _], h => by simp at h
  | [_, _, _, _], h => by simp at h
  | [_, _, _, _, _], h => by simp at h

theorem calcChecksumAux_eq_foldl : ∀ (acc : Nat) (l : List Nat),
    calcChecksumAux acc l = (words4 l).foldl (fun a w => a ^^^ w) acc := by
  intro acc l
  induction acc, l using calcChecksumAux.induct <;> simp_all [calcChecksumAux, words4]

/-! ## Claim theorems -/

/-- C6 (confirmed): for every datagram whose flag word contains any bit
outside the known set, `sync_state` returns `UnknownFlags(b)` where `b`
is exactly the set of unknown bits (`flags & !KNOWN_FLAGS`). -/
theorem sync_state_unknown_flags_rejected (data : List Nat) (len fro : Nat)
    (cfg : PacketConfig) (h1 : PACKET_MIN_LEN ≤ len) (h2 : len ≤ PACKET_MAX_LEN)
    (h3 : leAt2 data PACKET_PREFIX_LEN &&& UNKNOWN_MASK ≠ 0) :
    sync_state data len fro cfg =
      .fail (.unknownFlags (leAt2 data PACKET_PREFIX_LEN &&& UNKNOWN_MASK)) := by
  unfold sync_state sync_stateE
  rw [if_neg (by
        simp only [PACKET_MIN_LEN, PACKET_PREFIX_LEN, PACKET_FLAGS_LEN, PACKET_MAX_LEN] at *
        omega),
      if_pos h3]

/-- Witness for C6: a datagram with flag word `0x0002` (`HAS_PIGGYBACKS`)
is rejected with `UnknownFlags(0x0002)`. -/
theorem sync_state_unknown_flags_rejected_witness :
    PACKET_MIN_LEN ≤ 7 ∧ 7 ≤ PACKET_MAX_LEN ∧
    leAt2 [0, 0, 0, 0, 2, 0, 0] PACKET_PREFIX_LEN &&& UNKNOWN_MASK ≠ 0 ∧
    sync_state [0, 0, 0, 0, 2, 0, 0] 7 0 PacketConfig.new =
      .fail (.unknownFlags 0x0002) := by
  refine ⟨by decide, by decide, by decide, ?_⟩
  rw [sync_state_unknown_flags_rejected [0, 0, 0, 0, 2, 0, 0] 7 0 PacketConfig.new
        (by decide) (by decide) (by decide)]
  decide

/-- C9 (corrected): for `PACKET_MIN_LEN ≤ len < 33`, `sync_state` never
returns `Ok` (it unconditionally peels checksum, cumulative ack, ack
count with at least one ack, sequence number, request offset and
fragment range); and for `len < 10` it returns `UnknownFlags` when the
flag word has unknown bits, and otherwise panics in the first
`RawPacket::shrink` rather than returning a `PacketSyncError`. -/
theorem short_decode_never_ok (data : List Nat) (fro : Nat) (cfg : PacketConfig)
    (len : Nat) (h1 : PACKET_MIN_LEN ≤ len) (h2 : len < 33) :
    (sync_state data len fro cfg).isOk = false ∧
    (len < 10 →
      sync_state data len fro cfg =
        if leAt2 data PACKET_PREFIX_LEN &&& UNKNOWN_MASK ≠ 0 then
          .fail (.unknownFlags (leAt2 data PACKET_PREFIX_LEN &&& UNKNOWN_MASK))
        else .abort) := by
  have hlen : ¬ (len < PACKET_MIN_LEN ∨ PACKET_MAX_LEN < len) := by
    simp only [PACKET_MIN_LEN, PACKET_PREFIX_LEN, PACKET_FLAGS_LEN, PACKET_MAX_LEN] at *
    omega
  constructor
  · unfold sync_state
    cases he : sync_stateE data len fro cfg with
    | error e => cases e <;> simp [SyncResult.isOk]
    | ok out => exact absurd (sync_stateE_ok_len he) (by omega)
  · intro h3
    unfold sync_state sync_stateE
    rw [if_neg hlen]
    by_cases hu : leAt2 data PACKET_PREFIX_LEN &&& UNKNOWN_MASK ≠ 0
    · rw [if_pos hu, if_pos hu]
    · rw [if_neg hu, if_neg hu]
      have hc : stepChecksum data (leAt2 data PACKET_PREFIX_LEN) len = .error .abort := by
        unfold stepChecksum
        rw [if_pos (lor_ne_zero_right _ _ (by decide))]
        have hs : shrinkChk len 4 = none := by
          unfold shrinkChk
          rw [if_neg (by
            simp only [PACKET_MIN_LEN, PACKET_PREFIX_LEN, PACKET_FLAGS_LEN] at *
            omega)]
        rw [hs]
      rw [hc]

/-- Witness for C9's amended statement at the length-6 all-zero datagram. -/
theorem short_decode_never_ok_witness :
    PACKET_MIN_LEN ≤ 6 ∧ 6 < 33 ∧
    ((sync_state [0, 0, 0, 0, 0, 0] 6 0 PacketConfig.new).isOk = false ∧
     (6 < 10 →
       sync_state [0, 0, 0, 0, 0, 0] 6 0 PacketConfig.new =
         if leAt2 [0, 0, 0, 0, 0, 0] PACKET_PREFIX_LEN &&& UNKNOWN_MASK ≠ 0 then
           .fail (.unknownFlags (leAt2 [0, 0, 0, 0, 0, 0] PACKET_PREFIX_LEN &&& UNKNOWN_MASK))
         else .abort)) :=
  ⟨by decide, by decide,
   short_decode_never_ok [0, 0, 0, 0, 0, 0] 0 PacketConfig.new 6 (by decide) (by decide)⟩

/-- Counterexample for C9 as stated: at `len = 6 < 10` with flag word
`0x0002`, `sync_state` returns the error `UnknownFlags(2)` instead of
aborting in the shrink assertion. -/
theorem short_decode_error_not_abort :
    sync_state [0, 0, 0, 0, 2, 0] 6 0 PacketConfig.new =
      .fail (.unknownFlags 2) ∧
    sync_state [0, 0, 0, 0, 2, 0] 6 0 PacketConfig.new ≠ .abort := by
  constructor
  · decide
  · decide

/-- The fragment config of spec scenario 3: `sequence_range=(3,5)`,
`sequence_num=4`, all else default. -/
def cfgFragment : PacketConfig :=
  { PacketConfig.new with
      sequence_num := 4
      sequence_first_num := 3
      sequence_last_num := 5 }

/-- C7 (confirmed): encoding body `01` under `cfgFragment` produces flag
word `0x0060`, the trailer `03 00 00 00 05 00 00 00 04 00 00 00`
(fragment range then sequence number, little-endian), and a 19-byte
datagram. -/
theorem sync_data_fragment_example :
    sync_data [1] 0 cfgFragment =
      some (0x0060, [3, 0, 0, 0, 5, 0, 0, 0, 4, 0, 0, 0], cfgFragment) ∧
    (wireOf [0, 0, 0, 0] 0x0060 [1] [3, 0, 0, 0, 5, 0, 0, 0, 4, 0, 0, 0]).length = 19 := by
  constructor
  · decide
  · decide

/-- C1 (code bug): encoding the empty body under the default config
yields the minimal 6-byte datagram with flag word 0, but decoding it
back panics in `RawPacket::shrink` (the decoder tests
`flags | HAS_CHECKSUM != 0`, which always holds, and tries to peel a
checksum that is not there), so the claimed round-trip fails. -/
theorem roundtrip_default_decode_aborts :
    sync_data [] 0 PacketConfig.new = some (0, [], PacketConfig.new) ∧
    sync_state (wireOf [0, 0, 0, 0] 0 [] []) 6 0 PacketConfig.new = .abort := by
  constructor
  · decide
  · decide

/-- C2 (code bug): a 6-byte datagram with flag word 0 passes the
unknown-flags check, yet its decode panics while peeling a 4-byte
checksum instead of consuming no trailer bytes and succeeding. -/
theorem zero_flags_decode_aborts :
    sync_state [9, 9, 9, 9, 0, 0] 6 0 PacketConfig.new = .abort ∧
    ∀ cfg : PacketConfig, sync_state [9, 9, 9, 9, 0, 0] 6 0 PacketConfig.new ≠ .ok 6 0 cfg := by
  constructor
  · decide
  · intro cfg h
    have h1 : SyncResult.abort = SyncResult.ok 6 0 cfg := by
      rw [← h]
      decide
    exact absurd h1 (by simp)

/-- C3 (code bug): with ten queued acks and everything else default,
`sync_data` writes all ten acks and the count byte 10, and leaves the
queue empty - the room check compares against an `available_len` that
is computed once (28 here) and never decremented, so it never stops. -/
theorem sync_data_writes_all_acks :
    sync_data [] 0 cfgTenAcks =
      some (flags.HAS_ACKS,
        [1, 0, 0, 0, 2, 0, 0, 0, 3, 0, 0, 0, 4, 0, 0, 0, 5, 0, 0, 0,
         6, 0, 0, 0, 7, 0, 0, 0, 8, 0, 0, 0, 9, 0, 0, 0, 10, 0, 0, 0, 10],
        { cfgTenAcks with single_acks := [] }) := by
  decide

/-- C4 (code bug): the same encode completes with a 41-byte trailer,
exceeding both the actual `PACKET_MAX_FOOTER_LEN = 29` and the claimed
bound 33. -/
theorem sync_data_footer_exceeds_bound :
    (sync_data [] 0 cfgTenAcks).map (fun r => r.2.1.length) = some 41 ∧
    PACKET_MAX_FOOTER_LEN = 29 ∧ 29 < 41 ∧ 33 < 41 := by
  refine ⟨by decide, by decide, by decide, by decide⟩

/-- C5 (code bug): a config with acks `[1, 2]` and every other trailer
field present encodes with nothing left in the queue, and the buggy
decoder accepts the resulting datagram - but the decoded queue dequeues
`2` before `1`, the reverse of the original write order. -/
theorem ack_order_reversed_on_decode :
    sync_data [] 2 cfgAllFields =
      some (0x057D, footerAllFields, { cfgAllFields with single_acks := [] }) ∧
    sync_state (wireOf [0, 0, 0, 0] 0x057D [] footerAllFields) 37 0 PacketConfig.new =
      .ok PACKET_MIN_LEN 2 cfgAllFieldsDecoded ∧
    cfgAllFieldsDecoded.single_acks = [2, 1] := by
  refine ⟨by decide, by decide, by decide⟩

/-- C8 (confirmed): `calc_checksum` equals the spec checksum - the XOR,
from accumulator 0, of the successive complete little-endian u32 words,
any trailing group of fewer than 4 bytes ignored. -/
theorem calc_checksum_eq_spec (bytes : List Nat) :
    calc_checksum bytes = checksum_spec bytes := by
  unfold calc_checksum checksum_spec
  exact calcChecksumAux_eq_foldl 0 bytes

/-- C10 (confirmed): `write_flags(f)` changes only bytes `[4, 6)` of the
raw buffer - the length cursor, the 4-byte prefix and every byte from
offset 6 on are unchanged - and `read_flags` then returns exactly `f`. -/
theorem write_flags_frame (r : RawPacket) (f : Nat) (hf : f < 65536)
    (hd : r.data.length = PACKET_MAX_LEN) :
    (r.write_flags f).len = r.len ∧
    (r.write_flags f).data.length = r.data.length ∧
    (r.write_flags f).data.take PACKET_PREFIX_LEN = r.data.take PACKET_PREFIX_LEN ∧
    (r.write_flags f).data.drop (PACKET_PREFIX_LEN + PACKET_FLAGS_LEN) =
      r.data.drop (PACKET_PREFIX_LEN + PACKET_FLAGS_LEN) ∧
    (r.write_flags f).read_flags = f := by
  obtain ⟨d, n⟩ := r
  simp only [PACKET_MAX_LEN] at hd
  obtain ⟨a0, a1, a2, a3, a4, a5, t, rfl⟩ := exists_cons6 d (by omega)
  refine ⟨rfl, ?_, rfl, rfl, ?_⟩
  · simp [RawPacket.write_flags, le16, PACKET_PREFIX_LEN, PACKET_FLAGS_LEN]
  · show f % 256 + 256 * (f / 256 % 256) = f
    omega

/-- Witness for C10 at a concrete zeroed buffer and `f = 0xABCD`. -/
theorem write_flags_frame_witness :
    0xABCD < 65536 ∧
    (RawPacket.mk (List.replicate 1472 0) 6).data.length = PACKET_MAX_LEN ∧
    ((RawPacket.mk (List.replicate 1472 0) 6).write_flags 0xABCD).len =
      (RawPacket.mk (List.replicate 1472 0) 6).len ∧
    ((RawPacket.mk (List.replicate 1472 0) 6).write_flags 0xABCD).read_flags = 0xABCD := by
  have h := write_flags_frame (RawPacket.mk (List.replicate 1472 0) 6) 0xABCD
    (by decide) (by simp only [List.length_replicate, PACKET_MAX_LEN])
  exact ⟨by decide, by simp only [List.length_replicate, PACKET_MAX_LEN], h.1, h.2.2.2.2⟩
